import Mathlib

/-!
Shallow embedding of the BakeryAI agent query-routing and order-extraction
pipeline, translated from src/agent/agent_core.py, src/agent/llm_handler.py
and src/database/db_manager.py.

External collaborators (the FAISS vector store, the OpenAI chat model, the
SQLite stores, the environment variables) are modelled as components of an
`Env` record.  Side effects (interaction rows, order rows, the per-session
message history, external calls made) are returned explicitly in a
`RouterOut` record.  Python exceptions that the code does not catch are
modelled with `Except.error`; the similarity-search thresholds 0.7 / 0.8 /
0.85 are represented in thousandths (700 / 800 / 850) since they only serve
to distinguish call sites.

Python regular-expression word boundaries are modelled for the character
repertoire this code base works with: ASCII word characters plus the Spanish
accented letters.
-/

namespace BakeryAgent

/-- Python `str.lower` for the character repertoire used by the agent
(ASCII plus accented Spanish letters). -/
def pyLowerChar (c : Char) : Char :=
  match c with
  | 'Á' => 'á' | 'É' => 'é' | 'Í' => 'í' | 'Ó' => 'ó' | 'Ú' => 'ú'
  | 'Ñ' => 'ñ' | 'Ü' => 'ü'
  | _ => c.toLower

/-- Python `str.lower` on whole strings. -/
def pyLower (s : String) : String := String.mk (s.toList.map pyLowerChar)

/-- Word character for the regex metacharacter that marks word boundaries
(alphanumeric, underscore, accented Spanish letters). -/
def isWordChar (c : Char) : Bool :=
  c.isAlphanum || c = '_' ||
    ['á', 'é', 'í', 'ó', 'ú', 'ñ', 'ü', 'Á', 'É', 'Í', 'Ó', 'Ú', 'Ñ', 'Ü'].contains c

/-- A word boundary holds after a matched token when the rest of the input
starts with a non-word character (or is empty). -/
def boundaryAfter : List Char → Bool
  | [] => true
  | c :: _ => !isWordChar c

/-- Try to match one alternation of the pattern at the current position
(which the caller has checked to be at a word boundary): first a maximal
digit run when `useDigits` is set, then the literal tokens in order, each
followed by a word boundary.  Returns the number of characters matched. -/
def matchAt (useDigits : Bool) (tokens : List String) (l : List Char) : Option Nat :=
  let d := (l.takeWhile Char.isDigit).length
  if useDigits && !(d == 0) && boundaryAfter (l.drop d) then some d
  else
    tokens.findSome? fun t =>
      let tl := t.toList
      if tl.isPrefixOf l && boundaryAfter (l.drop tl.length) then some tl.length else none

/-- Leftmost search of the boundary-delimited alternation pattern;
`prevWord` records whether the previous character was a word character.
Returns the matched text. -/
def regexSearchAux (useDigits : Bool) (tokens : List String) :
    Bool → List Char → Option (List Char)
  | _, [] => none
  | prevWord, c :: cs =>
    match (if prevWord then none else matchAt useDigits tokens (c :: cs)) with
    | some len => some ((c :: cs).take len)
    | none => regexSearchAux useDigits tokens (isWordChar c) cs

/-- Model of a search for the first boundary-delimited occurrence of the
alternation pattern in the given string. -/
def findToken (useDigits : Bool) (tokens : List String) (s : String) : Option String :=
  (regexSearchAux useDigits tokens false s.toList).map String.mk

/-- Substitution of every non-overlapping boundary-delimited match of the
alternation pattern by the empty string, structured over a fuel argument
(one unit per input character) so that the function reduces definitionally;
the initial fuel supplied by `pySub` always suffices. -/
def regexSubAux (useDigits : Bool) (tokens : List String) :
    Nat → Bool → List Char → List Char
  | 0, _, l => l
  | Nat.succ fuel, prevWord, l =>
    match l with
    | [] => []
    | c :: cs =>
      match (if prevWord then none else matchAt useDigits tokens (c :: cs)) with
      | some len => regexSubAux useDigits tokens fuel true (cs.drop (len - 1))
      | none => c :: regexSubAux useDigits tokens fuel (isWordChar c) cs

/-- Model of a substitution of all matches of the alternation pattern by the
empty string. -/
def pySub (useDigits : Bool) (tokens : List String) (l : List Char) : List Char :=
  regexSubAux useDigits tokens l.length false l

/-- Boolean infix test on character lists, modelling the Python membership
test of one string inside another. -/
def listIsInfix (needle : List Char) : List Char → Bool
  | [] => needle.isEmpty
  | c :: cs => needle.isPrefixOf (c :: cs) || listIsInfix needle cs

/-- Python `needle in hay` on strings. -/
def pyIn (needle hay : String) : Bool := listIsInfix needle.toList hay.toList

/-- Python `str.strip(chars)`: remove leading and trailing characters
belonging to the given set. -/
def stripChars (setStr : String) (s : String) : String :=
  String.mk ((((s.toList.dropWhile fun c => setStr.toList.contains c).reverse.dropWhile
    fun c => setStr.toList.contains c).reverse))

/-- Python `str.strip()` with no argument: remove leading and trailing
whitespace (for the whitespace characters this code base meets). -/
def pyStrip (s : String) : String :=
  String.mk (((s.toList.dropWhile Char.isWhitespace).reverse.dropWhile
    Char.isWhitespace).reverse)

/-- Python `str.split(sep)` for a non-empty separator, over character lists;
structured over a fuel argument (one unit per input character) so that it
reduces definitionally.  `acc` holds the current segment reversed. -/
def pySplitAux (sep : List Char) : Nat → List Char → List Char → List (List Char)
  | 0, acc, l => [acc.reverse ++ l]
  | Nat.succ fuel, acc, l =>
    match l with
    | [] => [acc.reverse]
    | c :: cs =>
      if sep.isPrefixOf (c :: cs) then
        acc.reverse :: pySplitAux sep fuel [] (cs.drop (sep.length - 1))
      else pySplitAux sep fuel (c :: acc) cs

/-- Python `str.split(sep)` on strings (the code only calls it with a
non-empty separator). -/
def pySplit (sep : String) (s : String) : List String :=
  if sep = "" then [s]
  else (pySplitAux sep.toList s.toList.length [] s.toList).map String.mk

/-- Python `str.rstrip("s")`: remove every trailing letter s. -/
def rstripS (s : String) : String :=
  String.mk ((s.toList.reverse.dropWhile fun c => c = 's').reverse)

/-- Python `s[-n:]`: the suffix of the last (at most) `n` characters. -/
def pyTail (n : Nat) (s : String) : String :=
  String.mk (s.toList.drop (s.toList.length - n))

/-- Python `int` on a string of decimal digits. -/
def digitsToInt (s : String) : Int :=
  Int.ofNat (s.toList.foldl (fun acc c => acc * 10 + (c.toNat - 48)) 0)

/-- The static number-word lookup table `num_map` of `extract_order_info`. -/
def numMap : String → Option Int
  | "un" => some 1
  | "una" => some 1
  | "dos" => some 2
  | "tres" => some 3
  | "cuatro" => some 4
  | "cinco" => some 5
  | _ => none

/-- Value assigned to a matched quantity token: the mapped value of a number
word, the integer value of a digit sequence, and 1 otherwise (the media and
mitad tokens). -/
def tokenValue (numStr : String) : Int :=
  match numMap numStr with
  | some v => v
  | none =>
    if numStr != "" && numStr.toList.all Char.isDigit then digitsToInt numStr else 1

/-- The order-intent keywords of `extract_order_info`. -/
def orderKeywords : List String := ["quiero", "pedir", "comprar", "dame", "necesito"]

/-- The quantity-token alternation of `extract_order_info` (digit sequences
are tried before these literals). -/
def qtyTokens : List String :=
  ["un", "una", "dos", "tres", "cuatro", "cinco", "media", "mitad"]

/-- The article/preposition/conjunction stoplist removed from the product
phrase. -/
def stopWords : List String :=
  ["de", "el", "la", "los", "las", "un", "una", "y", "por", "para", "a"]

/-- The quantity computed by `extract_order_info` over the lowered query:
1 when no quantity token occurs, otherwise the value of the first token. -/
def quantityOf (low : String) : Int :=
  match findToken true qtyTokens low with
  | none => 1
  | some numStr => tokenValue numStr

/-- The product-phrase computation of `extract_order_info`: remove the
order keywords, the quantity tokens and the stoplist from the lowered query,
strip spaces, periods and commas, and discard results shorter than 3
characters. -/
def productPhrase (low : String) : Option String :=
  let texto := pySub false orderKeywords low.toList
  let texto2 := pySub true qtyTokens texto
  let texto3 := pySub false stopWords texto2
  let product_name := stripChars " .," (String.mk texto3)
  if product_name == "" || product_name.length < 3 then none else some product_name

/-- `extract_order_info` from agent_core.py: the absence of an order keyword
yields the empty candidate; otherwise the product phrase and the quantity
are extracted from the lowered query. -/
def extract_order_info (consulta : String) : Option String × Option Int :=
  let low := pyLower consulta
  if (findToken false orderKeywords low).isNone then (none, none)
  else (productPhrase low, some (quantityOf low))

/-- A catalog entry as read from catalog.json (only the fields the agent
reads: id, nombre, precio). -/
structure Producto where
  id : String
  nombre : String
  precio : Int
deriving DecidableEq, Repr

/-- A document returned by the vector-store similarity search. -/
structure Doc where
  page_content : String
deriving DecidableEq, Repr

/-- A message of a per-session `ChatMessageHistory`. -/
inductive Msg where
  | user (content : String)
  | ai (content : String)
deriving DecidableEq, Repr

/-- The message text. -/
def Msg.content : Msg → String
  | .user c => c
  | .ai c => c

/-- Whether the message type is "ai". -/
def Msg.isAi : Msg → Bool
  | .user _ => false
  | .ai _ => true

/-- A row of the orders table created by `DatabaseManager.add_order`. -/
structure OrderRec where
  orderId : Nat
  product_id : String
  quantity : Int
  status : String
deriving DecidableEq, Repr

/-- An external call made during routing (the similarity searches carry
their score threshold in thousandths). -/
inductive ExtCall where
  | search (query : String) (thresholdPerMille : Nat)
  | chatInvoke (prompt : String)
  | queryLlm (consulta : String)
deriving DecidableEq, Repr

/-- The tier that produced the response. -/
inductive Tier where
  | orderFound
  | orderNotFound
  | product
  | faq
  | llmSession
  | llmNoSession
  | llmDown
deriving DecidableEq, Repr

/-- The observable outcome of one routing call: the returned value and the
side effects (interaction rows, order rows, the updated history of the
addressed session, and the external calls made). -/
structure RouterOut where
  response : Option String
  interactions : List (String × String)
  orders : List OrderRec
  hist : List Msg
  calls : List ExtCall
  tier : Option Tier
deriving DecidableEq, Repr

/-- The environment of a routing call: configuration state and the external
collaborators.  `hasApiKey` models the OPENAI_API_KEY check (which also
decides whether `LLMHandler` initializes), `vectorLoadOk` whether the
persisted FAISS index loads, `catalog` the content of catalog.json (`none`
when the file is missing), `search`/`llmChat`/`llmQuery` the external calls
(which may raise), and `nextOrderId` the id the orders store will allocate
next. -/
structure Env where
  hasApiKey : Bool
  vectorLoadOk : Bool
  catalog : Option (List Producto)
  search : String → Nat → Except String (List Doc)
  llmChat : String → Except String String
  llmQuery : String → Except String String
  nextOrderId : Nat

/-- Python truthiness of an optional string. -/
def truthyS : Option String → Bool
  | none => false
  | some s => s != ""

/-- Python truthiness of an optional integer. -/
def truthyI : Option Int → Bool
  | none => false
  | some n => n != 0

/-- Step 1 of `validate_product`: scan the catalog in stored order; the
catalog name is lowered with all trailing letters s removed, the candidate
is lowered, and a match is containment in either direction. -/
def catalogScan (product_name : String) : List Producto → Option Producto
  | [] => none
  | producto :: rest =>
    let catalog_name := rstripS (pyLower producto.nombre)
    if pyIn (pyLower product_name) catalog_name || pyIn catalog_name (pyLower product_name)
    then some producto
    else catalogScan product_name rest

/-- `validate_product` from agent_core.py: catalog scan first, then the
semantic fallback search at threshold 0.7, whose hit must carry the
"Producto:" marker and re-match the catalog by containment.  A missing
catalog file is a recoverable "not found".  The search may raise, which the
code does not catch.  Also returns the external calls made. -/
def validate_product (env : Env) (product_name : String) :
    Except String (Option Producto × List ExtCall) :=
  match env.catalog with
  | none => Except.ok (none, [])
  | some productos =>
    match catalogScan product_name productos with
    | some producto => Except.ok (some producto, [])
    | none =>
      match env.search product_name 700 with
      | Except.error e => Except.error e
      | Except.ok results =>
        match results.head? with
        | some r =>
          if r.page_content != "" && pyIn "Producto:" r.page_content then
            let product_info :=
              pyStrip (((pySplit "\n" ((pySplit "Producto:" r.page_content).getD 1 "")).getD 0 ""))
            match productos.find? (fun producto =>
                pyIn (pyLower product_info) (pyLower producto.nombre)) with
            | some producto => Except.ok (some producto, [ExtCall.search product_name 700])
            | none => Except.ok (none, [ExtCall.search product_name 700])
          else Except.ok (none, [ExtCall.search product_name 700])
        | none => Except.ok (none, [ExtCall.search product_name 700])

/-- The error message produced by `LLMHandler.query_llm` when the chat call
raises. -/
def llmErrorMsg (e : String) : String := "Error al consultar el LLM: " ++ e

/-- `LLMHandler.query_llm` from llm_handler.py: sends the query to the chat
model, records the interaction itself, and converts any exception into an
error-message response (also recorded).  Returns the response and the
interaction rows it created. -/
def query_llm (env : Env) (consulta : String) : Option String × List (String × String) :=
  if consulta = "" then (none, [])
  else
    match env.llmQuery consulta with
    | Except.ok content =>
      let answer := pyStrip content
      (some answer, [(consulta, answer)])
    | Except.error e =>
      let msg := llmErrorMsg e
      (some msg, [(consulta, msg)])

/-- The joined context rendering built for the generative fallback: every
message as a "User: " line, followed by one "AI: " line per ai message. -/
def fullRender (hist : List Msg) : String :=
  String.intercalate "\n"
    ((hist.map fun m => "User: " ++ m.content) ++
     ((hist.filter fun m => m.isAi).map fun m => "AI: " ++ m.content))

/-- The context string passed to the prompt: the joined rendering truncated
to its last 1000 characters. -/
def build_context (hist : List Msg) : String := pyTail 1000 (fullRender hist)

/-- The fixed degraded-service message returned when the LLM handler is
unavailable. -/
def llmDownMsg : String := "No se pudo procesar la consulta debido a un error con el LLM."

/-- The generative-fallback tier of `buscar_respuesta`: with a (truthy)
session the prompt is composed from the bounded context and sent through the
chain (whose exception the code does not catch) and the history grows by the
query and the answer; without a session `query_llm` is called and the router
records the interaction again on top of the one `query_llm` recorded;
without an LLM handler the fixed degraded message is returned. -/
def llm_tier (env : Env) (c : String) (sid : Option String) (hist : List Msg)
    (calls : List ExtCall) : Except String RouterOut :=
  if env.hasApiKey && truthyS sid then
    let prompt := "Contexto: " ++ build_context hist ++ "\nPregunta: " ++ c ++ "\nRespuesta:"
    match env.llmChat prompt with
    | Except.error e => Except.error e
    | Except.ok response =>
      Except.ok
        { response := some response, interactions := [(c, response)], orders := [],
          hist := hist ++ [Msg.user c, Msg.ai response],
          calls := calls ++ [ExtCall.chatInvoke prompt], tier := some Tier.llmSession }
  else if env.hasApiKey then
    let qr := query_llm env c
    let response := qr.1.getD ""
    Except.ok
      { response := some response, interactions := qr.2 ++ [(c, response)],
        orders := [], hist := hist,
        calls := calls ++ [ExtCall.queryLlm c], tier := some Tier.llmNoSession }
  else
    Except.ok
      { response := some llmDownMsg, interactions := [(c, llmDownMsg)],
        orders := [], hist := hist, calls := calls, tier := some Tier.llmDown }

/-- The FAQ keyword list of `buscar_respuesta`. -/
def faqKeywords : List String :=
  ["horario", "gluten", "domicilio", "pago", "personalizado", "café", "fresco",
   "vegano", "reserva", "wi-fi", "bebida", "diabético", "ubicación"]

/-- The FAQ tier: when a FAQ keyword occurs in the lowered query, search at
threshold 0.85 (uncaught on exception); a hit carrying the "R:" marker
answers with the text after the marker, stripped; otherwise fall through to
the generative tier. -/
def faq_tier (env : Env) (c : String) (sid : Option String) (hist : List Msg)
    (calls : List ExtCall) : Except String RouterOut :=
  if faqKeywords.any fun k => pyIn k (pyLower c) then
    match env.search c 850 with
    | Except.error e => Except.error e
    | Except.ok results =>
      match results.head? with
      | some r =>
        if r.page_content != "" && pyIn "R:" r.page_content then
          let response := pyStrip ((pySplit "R:" r.page_content).getD 1 "")
          Except.ok
            { response := some response, interactions := [(c, response)],
              orders := [],
              hist := if truthyS sid then hist ++ [Msg.user c, Msg.ai response] else hist,
              calls := calls ++ [ExtCall.search c 850], tier := some Tier.faq }
        else llm_tier env c sid hist (calls ++ [ExtCall.search c 850])
      | none => llm_tier env c sid hist (calls ++ [ExtCall.search c 850])
  else llm_tier env c sid hist calls

/-- The product keyword list of `buscar_respuesta`. -/
def productKeywords : List String :=
  ["integral", "croissant", "galletas", "chocolate", "torta", "pan"]

/-- The tiers after the order tier: the product-keyword tier (reached only
when the extracted product phrase was falsy), then the FAQ tier, then the
generative fallback.  The product search at threshold 0.8 is uncaught on
exception; a hit carrying the "Producto:" marker is returned stripped. -/
def later_tiers (env : Env) (c : String) (sid : Option String) (hist : List Msg)
    (product_name : Option String) : Except String RouterOut :=
  if (productKeywords.any fun k => pyIn k (pyLower c)) && !truthyS product_name then
    match env.search c 800 with
    | Except.error e => Except.error e
    | Except.ok results =>
      match results.head? with
      | some r =>
        if r.page_content != "" && pyIn "Producto:" r.page_content then
          let response := pyStrip r.page_content
          Except.ok
            { response := some response, interactions := [(c, response)],
              orders := [],
              hist := if truthyS sid then hist ++ [Msg.user c, Msg.ai response] else hist,
              calls := [ExtCall.search c 800], tier := some Tier.product }
        else faq_tier env c sid hist [ExtCall.search c 800]
      | none => faq_tier env c sid hist [ExtCall.search c 800]
  else faq_tier env c sid hist []

/-- The confirmation string of a registered order. -/
def confirmMsg (n : Int) (nombre : String) (total : Int) (orderId : Nat) : String :=
  "Pedido registrado: " ++ toString n ++ " x " ++ nombre ++ " por $" ++ toString total ++
    ". ID del pedido: " ++ toString orderId ++ "."

/-- The apology returned when an explicit order attempt fails catalog
validation. -/
def notFoundMsg (p : String) : String :=
  "No encontramos \x27" ++ p ++
    "\x27 en nuestro catálogo. ¿Te gustaría consultar algo más o intentarlo con otro producto?"

/-- The order tier of `buscar_respuesta`: validate the candidate; on success
persist one order row with status "procesado" and answer with the
confirmation string; on failure answer with the apology naming the phrase.
Both outcomes record one interaction, append to the session history when a
session is present, and return. -/
def order_tier (env : Env) (c : String) (sid : Option String) (hist : List Msg)
    (p : String) (n : Int) : Except String RouterOut :=
  match validate_product env p with
  | Except.error e => Except.error e
  | Except.ok (some producto, vcalls) =>
    let response := confirmMsg n producto.nombre (producto.precio * n) env.nextOrderId
    Except.ok
      { response := some response, interactions := [(c, response)],
        orders := [{ orderId := env.nextOrderId, product_id := producto.id,
                     quantity := n, status := "procesado" }],
        hist := if truthyS sid then hist ++ [Msg.user c, Msg.ai response] else hist,
        calls := vcalls, tier := some Tier.orderFound }
  | Except.ok (none, vcalls) =>
    let response := notFoundMsg p
    Except.ok
      { response := some response, interactions := [(c, response)], orders := [],
        hist := if truthyS sid then hist ++ [Msg.user c, Msg.ai response] else hist,
        calls := vcalls, tier := some Tier.orderNotFound }

/-- `buscar_respuesta` from agent_core.py: reject falsy/non-string input
(modelled as `none` and the empty string) with no side effects; return
`none` with no side effects when the API key is missing or the vector store
fails to load; otherwise run the order tier when the extracted candidate has
a truthy phrase and a truthy quantity, and the later tiers otherwise. -/
def buscar_respuesta (env : Env) (consulta : Option String) (sid : Option String)
    (hist : List Msg) : Except String RouterOut :=
  match consulta with
  | none =>
    Except.ok
      { response := none, interactions := [], orders := [], hist := hist,
        calls := [], tier := none }
  | some c =>
    if c = "" then
      Except.ok
        { response := none, interactions := [], orders := [], hist := hist,
          calls := [], tier := none }
    else if env.hasApiKey = false then
      Except.ok
        { response := none, interactions := [], orders := [], hist := hist,
          calls := [], tier := none }
    else if env.vectorLoadOk = false then
      Except.ok
        { response := none, interactions := [], orders := [], hist := hist,
          calls := [], tier := none }
    else
      let pq := extract_order_info c
      if truthyS pq.1 && truthyI pq.2 then
        order_tier env c sid hist (pq.1.getD "") (pq.2.getD 0)
      else
        later_tiers env c sid hist pq.1

/-- The response of a routing call, `none` on an uncaught exception. -/
def resultResponse : Except String RouterOut → Option String
  | Except.ok o => o.response
  | Except.error _ => none

/-- The answering tier of a routing call. -/
def resultTier : Except String RouterOut → Option Tier
  | Except.ok o => o.tier
  | Except.error _ => none

/-- The external calls of a routing call. -/
def resultCalls : Except String RouterOut → List ExtCall
  | Except.ok o => o.calls
  | Except.error _ => []

/-- The order rows created by a routing call. -/
def resultOrders : Except String RouterOut → List OrderRec
  | Except.ok o => o.orders
  | Except.error _ => []

/-- Whether catalog validation found an entry (`none` when it raised). -/
def validFound (env : Env) (p : String) : Option Bool :=
  match validate_product env p with
  | Except.ok (o, _) => some o.isSome
  | Except.error _ => none

/-! Helper lemmas about the string and list primitives. -/

theorem toList_append (s t : String) : (s ++ t).toList = s.toList ++ t.toList :=
  String.data_append s t

theorem isPrefixOf_append_self (l t : List Char) : List.isPrefixOf l (l ++ t) = true := by
  induction l with
  | nil => simp [List.isPrefixOf]
  | cons a as ih => simp [List.isPrefixOf, ih]

theorem listIsInfix_cons (n : List Char) (c : Char) (cs : List Char)
    (h : listIsInfix n cs = true) : listIsInfix n (c :: cs) = true := by
  simp [listIsInfix, h]

theorem listIsInfix_self_append (n t : List Char) : listIsInfix n (n ++ t) = true := by
  cases n with
  | nil =>
    cases t with
    | nil => rfl
    | cons c cs => simp [listIsInfix, List.isPrefixOf]
  | cons m ms =>
    simp only [List.cons_append, listIsInfix]
    have := isPrefixOf_append_self (m :: ms) t
    simp only [List.cons_append] at this
    simp [this]

theorem listIsInfix_append_left (n s t : List Char) (h : listIsInfix n t = true) :
    listIsInfix n (s ++ t) = true := by
  induction s with
  | nil => simpa using h
  | cons c cs ih => simpa using listIsInfix_cons n c (cs ++ t) ih

/-! Helper lemmas about the extractor and the tiers. -/

theorem extract_fst_ne_empty (c p : String) (q : Option Int)
    (h : extract_order_info c = (some p, q)) : p ≠ "" := by
  unfold extract_order_info at h
  dsimp only at h
  split at h
  · simp at h
  · have h1 : productPhrase (pyLower c) = some p := congrArg Prod.fst h
    unfold productPhrase at h1
    dsimp only at h1
    split at h1
    · simp at h1
    · rename_i hcond
      simp only [Bool.or_eq_true, beq_iff_eq, decide_eq_true_eq, not_or] at hcond
      cases h1
      intro he
      exact hcond.1 he

theorem query_llm_snd_len (env : Env) (c : String) (hc : c ≠ "") :
    (query_llm env c).2.length = 1 := by
  unfold query_llm
  rw [if_neg hc]
  cases env.llmQuery c <;> rfl

theorem llm_tier_spec (env : Env) (c : String) (sid : Option String) (hist : List Msg)
    (calls : List ExtCall) (out : RouterOut) (hc : c ≠ "")
    (h : llm_tier env c sid hist calls = Except.ok out) :
    out.response.isSome = true ∧ out.orders = [] ∧
    out.tier ≠ some Tier.orderFound ∧ out.tier ≠ some Tier.orderNotFound ∧
    out.interactions.length = (if out.tier = some Tier.llmNoSession then 2 else 1) := by
  unfold llm_tier at h
  dsimp only at h
  split at h
  · split at h
    · cases h
    · cases h; simp
  · split at h
    · cases h
      simp [query_llm_snd_len env c hc]
    · cases h
      simp

theorem faq_tier_spec (env : Env) (c : String) (sid : Option String) (hist : List Msg)
    (calls : List ExtCall) (out : RouterOut) (hc : c ≠ "")
    (h : faq_tier env c sid hist calls = Except.ok out) :
    out.response.isSome = true ∧ out.orders = [] ∧
    out.tier ≠ some Tier.orderFound ∧ out.tier ≠ some Tier.orderNotFound ∧
    out.interactions.length = (if out.tier = some Tier.llmNoSession then 2 else 1) := by
  unfold faq_tier at h
  dsimp only at h
  split at h
  · split at h
    · cases h
    · split at h
      · split at h
        · cases h; simp
        · exact llm_tier_spec env c sid hist _ out hc h
      · exact llm_tier_spec env c sid hist _ out hc h
  · exact llm_tier_spec env c sid hist _ out hc h

theorem later_tiers_spec (env : Env) (c : String) (sid : Option String) (hist : List Msg)
    (pn : Option String) (out : RouterOut) (hc : c ≠ "")
    (h : later_tiers env c sid hist pn = Except.ok out) :
    out.response.isSome = true ∧ out.orders = [] ∧
    out.tier ≠ some Tier.orderFound ∧ out.tier ≠ some Tier.orderNotFound ∧
    out.interactions.length = (if out.tier = some Tier.llmNoSession then 2 else 1) := by
  unfold later_tiers at h
  dsimp only at h
  split at h
  · split at h
    · cases h
    · split at h
      · split at h
        · cases h; simp
        · exact faq_tier_spec env c sid hist _ out hc h
      · exact faq_tier_spec env c sid hist _ out hc h
  · exact faq_tier_spec env c sid hist _ out hc h

theorem validate_calls (env : Env) (p : String) (o : Option Producto) (vcalls : List ExtCall)
    (h : validate_product env p = Except.ok (o, vcalls)) :
    vcalls = [] ∨ vcalls = [ExtCall.search p 700] := by
  unfold validate_product at h
  split at h
  · cases h; exact Or.inl rfl
  · split at h
    · cases h; exact Or.inl rfl
    · split at h
      · cases h
      · split at h
        · split at h
          · dsimp only at h
            split at h
            · cases h; exact Or.inr rfl
            · cases h; exact Or.inr rfl
          · cases h; exact Or.inr rfl
        · cases h; exact Or.inr rfl

theorem order_tier_spec (env : Env) (c : String) (sid : Option String) (hist : List Msg)
    (p : String) (n : Int) (out : RouterOut)
    (h : order_tier env c sid hist p n = Except.ok out) :
    out.response.isSome = true ∧ out.interactions.length = 1 ∧
    (out.tier = some Tier.orderFound ∨
      (out.tier = some Tier.orderNotFound ∧ out.response = some (notFoundMsg p) ∧
        out.orders = [])) ∧
    (out.calls.all fun cl => cl = ExtCall.search p 700) = true := by
  unfold order_tier at h
  split at h
  · cases h
  · rename_i producto vcalls heq
    have hcl := validate_calls env p (some producto) vcalls heq
    dsimp only at h
    cases h
    rcases hcl with h1 | h1 <;> simp [h1]
  · rename_i vcalls heq
    have hcl := validate_calls env p none vcalls heq
    dsimp only at h
    cases h
    rcases hcl with h1 | h1 <;> simp [h1]

theorem buscar_order_case (env : Env) (c : String) (sid : Option String) (hist : List Msg)
    (p : String) (n : Int)
    (hk : env.hasApiKey = true) (hv : env.vectorLoadOk = true) (hc : c ≠ "")
    (hx : extract_order_info c = (some p, some n)) (hn : n ≠ 0) :
    buscar_respuesta env (some c) sid hist = order_tier env c sid hist p n := by
  have hp : p ≠ "" := extract_fst_ne_empty c p (some n) hx
  unfold buscar_respuesta
  dsimp only
  rw [if_neg hc, if_neg (by simp [hk]), if_neg (by simp [hv]), hx]
  simp [truthyS, truthyI, hp, hn]

theorem buscar_later_case (env : Env) (c : String) (sid : Option String) (hist : List Msg)
    (pn : Option String) (qn : Option Int)
    (hk : env.hasApiKey = true) (hv : env.vectorLoadOk = true) (hc : c ≠ "")
    (hx : extract_order_info c = (pn, qn)) (hg : (truthyS pn && truthyI qn) = false) :
    buscar_respuesta env (some c) sid hist = later_tiers env c sid hist pn := by
  unfold buscar_respuesta
  dsimp only
  rw [if_neg hc, if_neg (by simp [hk]), if_neg (by simp [hv]), hx]
  simp [hg]

theorem tokenValue_nonneg (s : String) : 0 ≤ tokenValue s := by
  unfold tokenValue
  split
  · rename_i v hv
    unfold numMap at hv
    split at hv <;> first
      | (cases hv; decide)
      | (exact absurd hv (by simp))
  · split
    · exact Int.ofNat_nonneg _
    · decide

theorem quantityOf_nonneg (low : String) : 0 ≤ quantityOf low := by
  unfold quantityOf
  split
  · decide
  · exact tokenValue_nonneg _

theorem pyIn_confirm_qty (n total : Int) (nombre : String) (oid : Nat) :
    pyIn (toString n) (confirmMsg n nombre total oid) = true := by
  unfold pyIn confirmMsg
  simp only [toList_append, List.append_assoc]
  exact listIsInfix_append_left _ _ _ (listIsInfix_self_append _ _)

theorem pyIn_confirm_nombre (n total : Int) (nombre : String) (oid : Nat) :
    pyIn nombre (confirmMsg n nombre total oid) = true := by
  unfold pyIn confirmMsg
  simp only [toList_append, List.append_assoc]
  exact listIsInfix_append_left _ _ _ (listIsInfix_append_left _ _ _
    (listIsInfix_append_left _ _ _ (listIsInfix_self_append _ _)))

theorem pyIn_confirm_total (n total : Int) (nombre : String) (oid : Nat) :
    pyIn (toString total) (confirmMsg n nombre total oid) = true := by
  unfold pyIn confirmMsg
  simp only [toList_append, List.append_assoc]
  exact listIsInfix_append_left _ _ _ (listIsInfix_append_left _ _ _
    (listIsInfix_append_left _ _ _ (listIsInfix_append_left _ _ _
      (listIsInfix_append_left _ _ _ (listIsInfix_self_append _ _)))))

theorem pyIn_confirm_oid (n total : Int) (nombre : String) (oid : Nat) :
    pyIn (toString oid) (confirmMsg n nombre total oid) = true := by
  unfold pyIn confirmMsg
  simp only [toList_append, List.append_assoc]
  exact listIsInfix_append_left _ _ _ (listIsInfix_append_left _ _ _
    (listIsInfix_append_left _ _ _ (listIsInfix_append_left _ _ _
      (listIsInfix_append_left _ _ _ (listIsInfix_append_left _ _ _
        (listIsInfix_append_left _ _ _ (listIsInfix_self_append _ _)))))))

theorem pyIn_notFound (p : String) : pyIn p (notFoundMsg p) = true := by
  unfold pyIn notFoundMsg
  simp only [toList_append, List.append_assoc]
  exact listIsInfix_append_left _ _ _ (listIsInfix_self_append _ _)

/-! Concrete catalog entries and environments used by the closed theorems. -/

def croissantEntry : Producto := { id := "3", nombre := "Croissant", precio := 3000 }

def tortaEntry : Producto := { id := "2", nombre := "Torta de Chocolate", precio := 25000 }

def envBase : Env :=
  { hasApiKey := true, vectorLoadOk := true, catalog := some [croissantEntry],
    search := fun _ _ => Except.ok [], llmChat := fun _ => Except.ok "OK",
    llmQuery := fun _ => Except.ok "¡Hola!", nextOrderId := 1 }

def envNoKey : Env := { envBase with hasApiKey := false }

def envNoVec : Env := { envBase with vectorLoadOk := false }

def envBoom : Env := { envBase with search := fun _ _ => Except.error "boom" }

def envLlmFail : Env := { envBase with llmQuery := fun _ => Except.error "fallo de red" }

def envChatFail : Env := { envBase with llmChat := fun _ => Except.error "caida" }

/-! The claims. -/

/-- Claim C1 (amended): every answered routing call records exactly one
interaction, except the generative fallback without a session, which records
two (one inside the LLM handler and one in the router). -/
theorem c1_single_interaction_amended (env : Env) (consulta : Option String)
    (sid : Option String) (hist : List Msg) (out : RouterOut)
    (h : buscar_respuesta env consulta sid hist = Except.ok out)
    (hr : out.response.isSome = true) :
    out.interactions.length = (if out.tier = some Tier.llmNoSession then 2 else 1) := by
  cases consulta with
  | none => cases h; simp at hr
  | some c =>
    unfold buscar_respuesta at h
    dsimp only at h
    by_cases hc : c = ""
    · rw [if_pos hc] at h; cases h; simp at hr
    · rw [if_neg hc] at h
      by_cases hk : env.hasApiKey = false
      · rw [if_pos hk] at h; cases h; simp at hr
      · rw [if_neg hk] at h
        by_cases hv : env.vectorLoadOk = false
        · rw [if_pos hv] at h; cases h; simp at hr
        · rw [if_neg hv] at h
          split at h
          · have hs := order_tier_spec env c sid hist _ _ out h
            rcases hs.2.2.1 with h1 | h1
            · simp [h1, hs.2.1]
            · simp [h1.1, hs.2.1]
          · exact (later_tiers_spec env c sid hist _ out hc h).2.2.2.2

/-- Claim C1 counterexample: the no-session generative path answers the
query yet records the same interaction twice, refuting the claim that no
path records an interaction twice. -/
theorem c1_counterexample :
    buscar_respuesta envBase (some "hola") none [] = Except.ok
      { response := some "¡Hola!",
        interactions := [("hola", "¡Hola!"), ("hola", "¡Hola!")],
        orders := [], hist := [], calls := [ExtCall.queryLlm "hola"],
        tier := some Tier.llmNoSession } := by rfl

/-- Claim C1 witness: the amended count at the concrete double-recording
input. -/
theorem c1_witness :
    ({ response := some "¡Hola!",
       interactions := [("hola", "¡Hola!"), ("hola", "¡Hola!")],
       orders := [], hist := [], calls := [ExtCall.queryLlm "hola"],
       tier := some Tier.llmNoSession } : RouterOut).interactions.length =
      (if ({ response := some "¡Hola!",
             interactions := [("hola", "¡Hola!"), ("hola", "¡Hola!")],
             orders := [], hist := [], calls := [ExtCall.queryLlm "hola"],
             tier := some Tier.llmNoSession } : RouterOut).tier = some Tier.llmNoSession
       then 2 else 1) :=
  c1_single_interaction_amended envBase (some "hola") none [] _ (by rfl) (by rfl)

/-- Claim C2: when the extracted candidate resolves to a catalog entry, the
router creates exactly one order row with the entry id, the extracted
quantity and status "procesado", and returns the confirmation string, which
contains the quantity, the entry name, the total (price times quantity) and
the newly allocated order id; exactly one interaction is recorded. -/
theorem c2_order_confirmation (env : Env) (c : String) (sid : Option String)
    (hist : List Msg) (p : String) (n : Int) (prod : Producto) (vcalls : List ExtCall)
    (hk : env.hasApiKey = true) (hv : env.vectorLoadOk = true) (hc : c ≠ "")
    (hx : extract_order_info c = (some p, some n)) (hn : n ≠ 0)
    (hval : validate_product env p = Except.ok (some prod, vcalls)) :
    buscar_respuesta env (some c) sid hist = Except.ok
      { response := some (confirmMsg n prod.nombre (prod.precio * n) env.nextOrderId),
        interactions := [(c, confirmMsg n prod.nombre (prod.precio * n) env.nextOrderId)],
        orders := [{ orderId := env.nextOrderId, product_id := prod.id, quantity := n,
                     status := "procesado" }],
        hist := if truthyS sid then
            hist ++ [Msg.user c,
              Msg.ai (confirmMsg n prod.nombre (prod.precio * n) env.nextOrderId)]
          else hist,
        calls := vcalls, tier := some Tier.orderFound } ∧
    pyIn (toString n) (confirmMsg n prod.nombre (prod.precio * n) env.nextOrderId) = true ∧
    pyIn prod.nombre (confirmMsg n prod.nombre (prod.precio * n) env.nextOrderId) = true ∧
    pyIn (toString (prod.precio * n))
      (confirmMsg n prod.nombre (prod.precio * n) env.nextOrderId) = true ∧
    pyIn (toString env.nextOrderId)
      (confirmMsg n prod.nombre (prod.precio * n) env.nextOrderId) = true := by
  refine ⟨?_, pyIn_confirm_qty n (prod.precio * n) prod.nombre env.nextOrderId,
    pyIn_confirm_nombre n (prod.precio * n) prod.nombre env.nextOrderId,
    pyIn_confirm_total n (prod.precio * n) prod.nombre env.nextOrderId,
    pyIn_confirm_oid n (prod.precio * n) prod.nombre env.nextOrderId⟩
  rw [buscar_order_case env c sid hist p n hk hv hc hx hn]
  unfold order_tier
  rw [hval]

/-- Claim C2 witness: ordering 2 croissants at price 3000 persists one order
row with quantity 2 and status "procesado" and answers with a confirmation
containing 2, Croissant, 6000 and the order id 1. -/
theorem c2_witness :
    buscar_respuesta envBase (some "quiero 2 croissants") none [] = Except.ok
      { response := some "Pedido registrado: 2 x Croissant por $6000. ID del pedido: 1.",
        interactions := [("quiero 2 croissants",
          "Pedido registrado: 2 x Croissant por $6000. ID del pedido: 1.")],
        orders := [{ orderId := 1, product_id := "3", quantity := 2,
                     status := "procesado" }],
        hist := [], calls := [], tier := some Tier.orderFound } ∧
    pyIn "2" "Pedido registrado: 2 x Croissant por $6000. ID del pedido: 1." = true ∧
    pyIn "Croissant" "Pedido registrado: 2 x Croissant por $6000. ID del pedido: 1." = true ∧
    pyIn "6000" "Pedido registrado: 2 x Croissant por $6000. ID del pedido: 1." = true ∧
    pyIn "1" "Pedido registrado: 2 x Croissant por $6000. ID del pedido: 1." = true := by
  exact c2_order_confirmation envBase "quiero 2 croissants" none [] "croissants" 2
    croissantEntry [] (by rfl) (by rfl) (by decide) (by rfl) (by decide) (by rfl)

/-- Claim C3 (amended): when the extractor yields a non-null product phrase
and a nonzero quantity, the router resolves the query in the order tier and
returns there, never evaluating the product-keyword, FAQ or generative
tiers; its only possible external call is the catalog-validation search, and
when validation fails the apology naming the unresolved phrase is the
terminal response.  (Order intent with a null phrase, or with a zero
quantity, falls through instead.) -/
theorem c3_order_precedence_amended (env : Env) (c : String) (sid : Option String)
    (hist : List Msg) (p : String) (n : Int)
    (hk : env.hasApiKey = true) (hv : env.vectorLoadOk = true) (hc : c ≠ "")
    (hx : extract_order_info c = (some p, some n)) (hn : n ≠ 0) :
    buscar_respuesta env (some c) sid hist = order_tier env c sid hist p n ∧
    resultTier (buscar_respuesta env (some c) sid hist) ≠ some Tier.product ∧
    resultTier (buscar_respuesta env (some c) sid hist) ≠ some Tier.faq ∧
    resultTier (buscar_respuesta env (some c) sid hist) ≠ some Tier.llmSession ∧
    resultTier (buscar_respuesta env (some c) sid hist) ≠ some Tier.llmNoSession ∧
    resultTier (buscar_respuesta env (some c) sid hist) ≠ some Tier.llmDown ∧
    (resultCalls (buscar_respuesta env (some c) sid hist)).all
      (fun cl => cl = ExtCall.search p 700) = true ∧
    pyIn p (notFoundMsg p) = true ∧
    (validFound env p = some false →
      resultResponse (buscar_respuesta env (some c) sid hist) = some (notFoundMsg p)) := by
  have heq := buscar_order_case env c sid hist p n hk hv hc hx hn
  rw [heq]
  refine ⟨rfl, ?_⟩
  cases hval : validate_product env p with
  | error e =>
    simp [order_tier, hval, resultTier, resultCalls, resultResponse, validFound,
      pyIn_notFound p]
  | ok pr =>
    obtain ⟨o, vcalls⟩ := pr
    have hcl := validate_calls env p o vcalls hval
    cases o with
    | some prod =>
      rcases hcl with h1 | h1 <;>
        simp [order_tier, hval, resultTier, resultCalls, resultResponse, validFound, h1,
          pyIn_notFound p]
    | none =>
      rcases hcl with h1 | h1 <;>
        simp [order_tier, hval, resultTier, resultCalls, resultResponse, validFound, h1,
          pyIn_notFound p]

/-- Claim C3 counterexample: an order-intent query with a non-null product
phrase and extracted quantity 0 is not resolved by the order tier; it falls
through to the generative tier, refuting the claim that only a null product
phrase falls through. -/
theorem c3_counterexample :
    extract_order_info "quiero 0 pan" = (some "pan", some 0) ∧
    buscar_respuesta envBase (some "quiero 0 pan") none [] =
      later_tiers envBase "quiero 0 pan" none [] (some "pan") ∧
    resultTier (buscar_respuesta envBase (some "quiero 0 pan") none []) =
      some Tier.llmNoSession ∧
    resultOrders (buscar_respuesta envBase (some "quiero 0 pan") none []) = [] :=
  ⟨by rfl, by rfl, by rfl, by rfl⟩

/-- Claim C3 witness: an order attempt whose phrase fails validation is
terminal with the apology naming the phrase. -/
theorem c3_witness :
    buscar_respuesta envBase (some "quiero tortas unicornio") none [] =
      order_tier envBase "quiero tortas unicornio" none [] "tortas unicornio" 1 ∧
    resultTier (buscar_respuesta envBase (some "quiero tortas unicornio") none []) ≠
      some Tier.product ∧
    resultResponse (buscar_respuesta envBase (some "quiero tortas unicornio") none []) =
      some (notFoundMsg "tortas unicornio") := by
  have h := c3_order_precedence_amended envBase "quiero tortas unicornio" none []
    "tortas unicornio" 1 (by rfl) (by rfl) (by decide) (by rfl) (by decide)
  exact ⟨h.1, h.2.1, h.2.2.2.2.2.2.2.2 (by rfl)⟩

/-- Claim C4 (amended): when a configuration error is present (missing API
credential, or the vector store failing to load), the router returns a null
result without raising, and records no interaction, creates no order, and
leaves the session history untouched (rather than returning a degraded
message with an interaction recorded). -/
theorem c4_config_error_amended (env : Env) (c : String) (sid : Option String)
    (hist : List Msg) (hc : c ≠ "")
    (hcfg : env.hasApiKey = false ∨ env.vectorLoadOk = false) :
    buscar_respuesta env (some c) sid hist = Except.ok
      { response := none, interactions := [], orders := [], hist := hist,
        calls := [], tier := none } := by
  unfold buscar_respuesta
  dsimp only
  rw [if_neg hc]
  rcases hcfg with h | h
  · rw [if_pos h]
  · by_cases hk : env.hasApiKey = false
    · rw [if_pos hk]
    · rw [if_neg hk, if_pos h]

/-- Claim C4 counterexample: with the API key missing (and likewise with the
vector store failing to load), the router answers a well-formed query with a
null response and records no interaction, refuting the degraded-response and
one-interaction parts of the claim. -/
theorem c4_counterexample :
    buscar_respuesta envNoKey (some "Quiero 2 croissants") none [] = Except.ok
      { response := none, interactions := [], orders := [], hist := [],
        calls := [], tier := none } ∧
    buscar_respuesta envNoVec (some "Quiero 2 croissants") none [] = Except.ok
      { response := none, interactions := [], orders := [], hist := [],
        calls := [], tier := none } :=
  ⟨by rfl, by rfl⟩

/-- Claim C4 witness: the amended behaviour at a concrete missing-key
environment. -/
theorem c4_witness :
    buscar_respuesta envNoKey (some "hola") (some "sess") [] = Except.ok
      { response := none, interactions := [], orders := [], hist := [],
        calls := [], tier := none } :=
  c4_config_error_amended envNoKey "hola" (some "sess") [] (by decide) (Or.inl (by rfl))

theorem validate_search_raises (env : Env) (p : String) (ps : List Producto) (e : String)
    (hcat : env.catalog = some ps) (hscan : catalogScan p ps = none)
    (hse : env.search p 700 = Except.error e) :
    validate_product env p = Except.error e := by
  unfold validate_product
  rw [hcat]
  dsimp only
  rw [hscan]
  dsimp only
  rw [hse]

/-- Claim C5 (amended): exceptions raised by the similarity search propagate
out of the routing call uncaught at every search site — the catalog
validation fallback (threshold 0.7), the product tier (0.8) and the FAQ tier
(0.85) — and so does an exception of the with-session generation chain; only
the no-session generation path catches exceptions, converting them into the
recorded "Error al consultar el LLM" response (which the router then records
a second time). -/
theorem c5_exception_amended :
    (∀ (env : Env) (c : String) (sid : Option String) (hist : List Msg)
        (p : String) (n : Int) (ps : List Producto) (e : String),
      env.hasApiKey = true → env.vectorLoadOk = true → c ≠ "" →
      extract_order_info c = (some p, some n) → n ≠ 0 →
      env.catalog = some ps → catalogScan p ps = none →
      env.search p 700 = Except.error e →
      buscar_respuesta env (some c) sid hist = Except.error e) ∧
    (∀ (env : Env) (c : String) (sid : Option String) (hist : List Msg) (e : String),
      env.hasApiKey = true → env.vectorLoadOk = true → c ≠ "" →
      extract_order_info c = (none, none) →
      (productKeywords.any fun k => pyIn k (pyLower c)) = true →
      env.search c 800 = Except.error e →
      buscar_respuesta env (some c) sid hist = Except.error e) ∧
    (∀ (env : Env) (c : String) (sid : Option String) (hist : List Msg) (e : String),
      env.hasApiKey = true → env.vectorLoadOk = true → c ≠ "" →
      extract_order_info c = (none, none) →
      (productKeywords.any fun k => pyIn k (pyLower c)) = false →
      (faqKeywords.any fun k => pyIn k (pyLower c)) = true →
      env.search c 850 = Except.error e →
      buscar_respuesta env (some c) sid hist = Except.error e) ∧
    (∀ (env : Env) (c : String) (s : String) (hist : List Msg) (e : String),
      env.hasApiKey = true → env.vectorLoadOk = true → c ≠ "" → s ≠ "" →
      extract_order_info c = (none, none) →
      (productKeywords.any fun k => pyIn k (pyLower c)) = false →
      (faqKeywords.any fun k => pyIn k (pyLower c)) = false →
      env.llmChat ("Contexto: " ++ build_context hist ++ "\nPregunta: " ++ c ++
        "\nRespuesta:") = Except.error e →
      buscar_respuesta env (some c) (some s) hist = Except.error e) ∧
    (∀ (env : Env) (c : String) (hist : List Msg) (e : String),
      env.hasApiKey = true → env.vectorLoadOk = true → c ≠ "" →
      extract_order_info c = (none, none) →
      (productKeywords.any fun k => pyIn k (pyLower c)) = false →
      (faqKeywords.any fun k => pyIn k (pyLower c)) = false →
      env.llmQuery c = Except.error e →
      buscar_respuesta env (some c) none hist = Except.ok
        { response := some (llmErrorMsg e),
          interactions := [(c, llmErrorMsg e), (c, llmErrorMsg e)],
          orders := [], hist := hist, calls := [ExtCall.queryLlm c],
          tier := some Tier.llmNoSession }) := by
  refine ⟨?_, ?_, ?_, ?_, ?_⟩
  · intro env c sid hist p n ps e hk hv hc hx hn hcat hscan hse
    rw [buscar_order_case env c sid hist p n hk hv hc hx hn]
    unfold order_tier
    rw [validate_search_raises env p ps e hcat hscan hse]
  · intro env c sid hist e hk hv hc hx hpk hse
    rw [buscar_later_case env c sid hist none none hk hv hc hx (by rfl)]
    unfold later_tiers
    rw [hpk, if_pos (by decide), hse]
  · intro env c sid hist e hk hv hc hx hpk hfk hse
    rw [buscar_later_case env c sid hist none none hk hv hc hx (by rfl)]
    unfold later_tiers
    rw [hpk, if_neg (by simp)]
    unfold faq_tier
    rw [hfk, if_pos rfl, hse]
  · intro env c s hist e hk hv hc hs hx hpk hfk hchat
    rw [buscar_later_case env c (some s) hist none none hk hv hc hx (by rfl)]
    unfold later_tiers
    rw [hpk, if_neg (by simp)]
    unfold faq_tier
    rw [hfk, if_neg (by simp)]
    unfold llm_tier
    rw [if_pos (by simp [truthyS, hk, hs])]
    dsimp only
    rw [hchat]
  · intro env c hist e hk hv hc hx hpk hfk hq
    rw [buscar_later_case env c none hist none none hk hv hc hx (by rfl)]
    unfold later_tiers
    rw [hpk, if_neg (by simp)]
    unfold faq_tier
    rw [hfk, if_neg (by simp)]
    unfold llm_tier
    rw [if_neg (by simp [truthyS]), if_pos hk]
    unfold query_llm
    rw [if_neg hc, hq]
    rfl

/-- Claim C5 counterexample: an exception raised by the similarity search in
the product tier propagates out of the routing call, refuting the claim that
no external-call exception escapes the router. -/
theorem c5_counterexample :
    buscar_respuesta envBoom (some "torta") none [] = Except.error "boom" := by rfl

/-- Claim C5 witness: a raising search crashes the route call at the
validation-fallback site, the product-tier site and the FAQ-tier site, a
raising with-session chain crashes it too, and a generation failure in the
no-session path is caught and converted into the recorded error response. -/
theorem c5_witness :
    buscar_respuesta envBoom (some "quiero tortas unicornio") none [] =
      Except.error "boom" ∧
    buscar_respuesta envBoom (some "torta de chocolate") none [] =
      Except.error "boom" ∧
    buscar_respuesta envBoom (some "horario") none [] = Except.error "boom" ∧
    buscar_respuesta envChatFail (some "hola") (some "sess") [] =
      Except.error "caida" ∧
    buscar_respuesta envLlmFail (some "hola") none [] = Except.ok
      { response := some "Error al consultar el LLM: fallo de red",
        interactions := [("hola", "Error al consultar el LLM: fallo de red"),
                         ("hola", "Error al consultar el LLM: fallo de red")],
        orders := [], hist := [], calls := [ExtCall.queryLlm "hola"],
        tier := some Tier.llmNoSession } := by
  refine ⟨?_, ?_, ?_, ?_, ?_⟩
  · exact c5_exception_amended.1 envBoom "quiero tortas unicornio" none []
      "tortas unicornio" 1 [croissantEntry] "boom" (by rfl) (by rfl) (by decide)
      (by rfl) (by decide) (by rfl) (by rfl) (by rfl)
  · exact c5_exception_amended.2.1 envBoom "torta de chocolate" none [] "boom"
      (by rfl) (by rfl) (by decide) (by rfl) (by rfl) (by rfl)
  · exact c5_exception_amended.2.2.1 envBoom "horario" none [] "boom" (by rfl)
      (by rfl) (by decide) (by rfl) (by rfl) (by rfl) (by rfl)
  · exact c5_exception_amended.2.2.2.1 envChatFail "hola" "sess" [] "caida" (by rfl)
      (by rfl) (by decide) (by decide) (by rfl) (by rfl) (by rfl) (by rfl)
  · exact c5_exception_amended.2.2.2.2 envLlmFail "hola" [] "fallo de red" (by rfl)
      (by rfl) (by decide) (by rfl) (by rfl) (by rfl) (by rfl)

/-- Claim C6 (amended): for every text with an order-intent keyword the
extractor returns a quantity, which is nonnegative (it can be 0 when the
first quantity token is the digit sequence 0), and defaults to 1 when no
quantity token occurs. -/
theorem c6_quantity_amended (t : String)
    (hkw : (findToken false orderKeywords (pyLower t)).isNone = false) :
    (extract_order_info t).2 = some (quantityOf (pyLower t)) ∧
    0 ≤ quantityOf (pyLower t) ∧
    (findToken true qtyTokens (pyLower t) = none → quantityOf (pyLower t) = 1) := by
  refine ⟨?_, quantityOf_nonneg _, ?_⟩
  · unfold extract_order_info
    dsimp only
    rw [if_neg (by simp [hkw])]
  · intro h
    unfold quantityOf
    rw [h]

/-- Claim C6 counterexample: the extractor can return quantity 0 (for the
digit token 0), refuting the claim that the returned quantity is always a
positive integer. -/
theorem c6_counterexample :
    ¬ ∀ (t : String) (n : Int),
        (findToken false orderKeywords (pyLower t)).isNone = false →
        (extract_order_info t).2 = some n → 0 < n := by
  intro h
  exact absurd (h "quiero 0 pan" 0 (by rfl) (by rfl)) (by decide)

/-- Claim C6 witness: an intent keyword with no quantity token yields
quantity 1. -/
theorem c6_witness :
    (extract_order_info "quiero pan").2 = some (quantityOf (pyLower "quiero pan")) ∧
    0 ≤ quantityOf (pyLower "quiero pan") ∧
    quantityOf (pyLower "quiero pan") = 1 := by
  have h := c6_quantity_amended "quiero pan" (by rfl)
  exact ⟨h.1, h.2.1, h.2.2 (by rfl)⟩

/-- Modelled from the spec: a single trailing letter s stripped from a
string, as claim C7 words the normalization. -/
def stripOneS (s : String) : String :=
  if s.toList.getLast? = some 's' then String.mk s.toList.dropLast else s

/-- Modelled from the spec: the catalog scan as claim C7 describes it —
BOTH the candidate phrase and the catalog name lowercased with a single
trailing s stripped, matching on containment in either direction, first
match in stored order. -/
def catalogScanSpecSingleS (pn : String) (ps : List Producto) : Option Producto :=
  ps.find? fun producto =>
    let normP := stripOneS (pyLower pn)
    let normC := stripOneS (pyLower producto.nombre)
    pyIn normP normC || pyIn normC normP

/-- Claim C7 (amended): step 1 of catalog validation lowercases the
candidate phrase (without singularizing it) and lowercases each catalog name
with ALL trailing letters s stripped, declares a match when either resulting
string contains the other, and returns the first matching entry in stored
order; in particular "croissants" matches the entry Croissant. -/
theorem c7_scan_amended :
    (∀ (pn : String) (ps : List Producto),
      catalogScan pn ps = ps.find? fun producto =>
        pyIn (pyLower pn) (rstripS (pyLower producto.nombre)) ||
          pyIn (rstripS (pyLower producto.nombre)) (pyLower pn)) ∧
    catalogScan "croissants" [croissantEntry] = some croissantEntry := by
  constructor
  · intro pn ps
    induction ps with
    | nil => rfl
    | cons a l ih =>
      cases hpa : (pyIn (pyLower pn) (rstripS (pyLower a.nombre)) ||
          pyIn (rstripS (pyLower a.nombre)) (pyLower pn)) with
      | true => simp [catalogScan, List.find?, hpa]
      | false => simp [catalogScan, List.find?, hpa, ih]
  · rfl

/-- Claim C7 counterexample: the candidate phrase is NOT singularized by the
code, so "tortas" does not match the entry Torta de Chocolate in step 1,
while the normalization the claim describes (single trailing s stripped from
both sides) would match it. -/
theorem c7_counterexample :
    catalogScan "tortas" [tortaEntry] = none ∧
    catalogScanSpecSingleS "tortas" [tortaEntry] = some tortaEntry :=
  ⟨by rfl, by rfl⟩

/-- Claim C8: an empty (or non-string, modelled as `none`) query is rejected
immediately: null response, no interaction, no order, no external call, no
session-history change, no tier evaluated. -/
theorem c8_malformed_input (env : Env) (sid : Option String) (hist : List Msg) :
    buscar_respuesta env none sid hist = Except.ok
      { response := none, interactions := [], orders := [], hist := hist,
        calls := [], tier := none } ∧
    buscar_respuesta env (some "") sid hist = Except.ok
      { response := none, interactions := [], orders := [], hist := hist,
        calls := [], tier := none } := by
  constructor
  · rfl
  · unfold buscar_respuesta
    dsimp only
    rw [if_pos rfl]

/-- Modelled from the spec: the context rendering as claim C9 describes it —
alternating "User: " / "AI: " lines in message order, truncated to the last
maxChars characters. -/
def contextWindowSpec (maxChars : Nat) (hist : List Msg) : String :=
  pyTail maxChars (String.intercalate "\n" (hist.map fun m =>
    match m with
    | Msg.user s => "User: " ++ s
    | Msg.ai s => "AI: " ++ s))

set_option maxRecDepth 4000 in
/-- Claim C9 counterexample: the context builder renders EVERY message as a
"User: " line and then appends "AI: " lines for the ai messages, so a
user/ai exchange is not rendered as alternating lines in message order. -/
theorem c9_counterexample :
    build_context [Msg.user "hola", Msg.ai "buenas"] =
      "User: hola\nUser: buenas\nAI: buenas" ∧
    contextWindowSpec 1000 [Msg.user "hola", Msg.ai "buenas"] =
      "User: hola\nAI: buenas" ∧
    build_context [Msg.user "hola", Msg.ai "buenas"] ≠
      contextWindowSpec 1000 [Msg.user "hola", Msg.ai "buenas"] :=
  ⟨by rfl, by rfl, by decide⟩

theorem pyTail_suffix (n : Nat) (s : String) : (pyTail n s).toList <:+ s.toList := by
  unfold pyTail
  exact List.drop_suffix _ _

theorem pyTail_length_le (n : Nat) (s : String) : (pyTail n s).length ≤ n := by
  unfold pyTail
  show (s.toList.drop (s.toList.length - n)).length ≤ n
  rw [List.length_drop]
  omega

/-- Claim C9 (amended): the context string is the joined rendering (all
messages as "User: " lines, then one "AI: " line per ai message) truncated
to its last 1000 characters; the truncation is suffix-preserving and the
result never exceeds 1000 characters. -/
theorem c9_context_amended (hist : List Msg) :
    build_context hist = pyTail 1000 (fullRender hist) ∧
    (build_context hist).toList <:+ (fullRender hist).toList ∧
    (build_context hist).length ≤ 1000 :=
  ⟨rfl, pyTail_suffix 1000 (fullRender hist), pyTail_length_le 1000 (fullRender hist)⟩

/-- Claim C10: a query whose first quantity token is the digit sequence 0
(with an order-intent keyword present) gets quantity 0 from the extractor,
the order-tier guard treats it as not an order, and the query is handled by
the later tiers with no order created. -/
theorem c10_zero_quantity (env : Env) (c : String) (sid : Option String) (hist : List Msg)
    (hk : env.hasApiKey = true) (hv : env.vectorLoadOk = true) (hc : c ≠ "")
    (hkw : (findToken false orderKeywords (pyLower c)).isNone = false)
    (hq : findToken true qtyTokens (pyLower c) = some "0") :
    (extract_order_info c).2 = some 0 ∧
    buscar_respuesta env (some c) sid hist =
      later_tiers env c sid hist (extract_order_info c).1 ∧
    resultOrders (buscar_respuesta env (some c) sid hist) = [] ∧
    resultTier (buscar_respuesta env (some c) sid hist) ≠ some Tier.orderFound ∧
    resultTier (buscar_respuesta env (some c) sid hist) ≠ some Tier.orderNotFound := by
  have hq0 : quantityOf (pyLower c) = 0 := by
    unfold quantityOf
    rw [hq]
    rfl
  have hext : extract_order_info c = (productPhrase (pyLower c), some 0) := by
    unfold extract_order_info
    dsimp only
    rw [if_neg (by simp [hkw]), hq0]
  have hroute := buscar_later_case env c sid hist (productPhrase (pyLower c)) (some 0)
    hk hv hc hext (by simp [truthyI])
  refine ⟨by rw [hext], by rw [hext]; exact hroute, ?_, ?_, ?_⟩
  · rw [hroute]
    cases hres : later_tiers env c sid hist (productPhrase (pyLower c)) with
    | error e => simp [resultOrders]
    | ok out =>
      simpa [resultOrders] using (later_tiers_spec env c sid hist _ out hc hres).2.1
  · rw [hroute]
    cases hres : later_tiers env c sid hist (productPhrase (pyLower c)) with
    | error e => simp [resultTier]
    | ok out =>
      simpa [resultTier] using (later_tiers_spec env c sid hist _ out hc hres).2.2.1
  · rw [hroute]
    cases hres : later_tiers env c sid hist (productPhrase (pyLower c)) with
    | error e => simp [resultTier]
    | ok out =>
      simpa [resultTier] using (later_tiers_spec env c sid hist _ out hc hres).2.2.2.1

/-- Claim C10 witness: the zero-quantity behaviour at a concrete query. -/
theorem c10_witness :
    (extract_order_info "quiero 0 pan").2 = some 0 ∧
    buscar_respuesta envBase (some "quiero 0 pan") (some "sess") [] =
      later_tiers envBase "quiero 0 pan" (some "sess") []
        (extract_order_info "quiero 0 pan").1 ∧
    resultOrders (buscar_respuesta envBase (some "quiero 0 pan") (some "sess") []) = [] ∧
    resultTier (buscar_respuesta envBase (some "quiero 0 pan") (some "sess") []) ≠
      some Tier.orderFound ∧
    resultTier (buscar_respuesta envBase (some "quiero 0 pan") (some "sess") []) ≠
      some Tier.orderNotFound :=
  c10_zero_quantity envBase "quiero 0 pan" (some "sess") [] (by rfl) (by rfl)
    (by decide) (by rfl) (by rfl)

end BakeryAgent
